import Mathlib

/-!
Verification of the Catalog Query Engine of the `advanced-api-project` Django
application (book/author catalog API).

The definitions below are a shallow embedding of the relevant source files:

* `api/models.py` — the `Author` and `Book` entities, `Book.clean`,
  `Book.save` (which calls `full_clean`), and the declared `Meta` orderings;
* `api/filters.py` — `BookFilter` (declarative criteria with
  `icontains` / `exact` / `gte` / `lte` lookups);
* `api/views.py` — `AuthorViewSet` / `BookViewSet`: search and ordering
  configuration, the `statistics`, `top_rated`, `recent` and `price_range`
  actions;
* `api/serializers.py` — `BookSerializer` field validators and object-level
  validation;
* `api/pagination.py` — `StandardResultsSetPagination` on top of the
  framework's page-number pagination (Django `Paginator` slicing plus the
  REST framework's `paginate_queryset`, which turns an invalid page into a
  404 response).

Decimal database values (price, rating) are modelled as rationals; datetime
columns are modelled as natural-number timestamps; querysets are lists of
records in primary-key insertion order.
-/

namespace CatalogApi

/-! ## Data model (api/models.py) -/

/-- Source `Author` model: the fields used by the query engine.  `books` is the
reverse foreign key, recovered here by filtering `Book` records on
`author`. -/
structure Author where
  id : Nat
  name : String
  bio : String
  birth_date : Option Int
  nationality : String
  created_at : Nat
deriving DecidableEq, Repr

/-- Source `Book` model fields used by the query engine.  `author` is the foreign
key (an `Author` id) and `author_name` carries the joined `author.name`
column used by the `author__name` lookups and search. -/
structure Book where
  id : Nat
  title : String
  author : Nat
  author_name : String
  isbn : String
  publication_year : Int
  genre : String
  pages : Option Nat
  rating : Option Rat
  price : Rat
  description : String
  in_stock : Bool
  created_at : Nat
  updated_at : Nat
deriving DecidableEq, Repr

/-! ## String helpers for `icontains` lookups -/

/-- Predicate `startsWithChars needle l` : does `l` begin with `needle`? -/
def startsWithChars : List Char → List Char → Bool
  | [], _ => true
  | _ :: _, [] => false
  | a :: as, b :: bs => a == b && startsWithChars as bs

/-- Predicate `hasInfixChars needle l` : does `needle` occur contiguously in `l`? -/
def hasInfixChars (needle : List Char) : List Char → Bool
  | [] => needle.isEmpty
  | a :: rest => startsWithChars needle (a :: rest) || hasInfixChars needle rest

/-- Lower-cased character list of a string (`str.lower()`). -/
def lowerChars (s : String) : List Char := s.toList.map Char.toLower

/-- Strip surrounding whitespace (`str.strip()`). -/
def trimChars (cs : List Char) : List Char :=
  ((cs.dropWhile Char.isWhitespace).reverse.dropWhile Char.isWhitespace).reverse

/-- Strip surrounding whitespace, as a string. -/
def trimStr (s : String) : String := ⟨trimChars s.toList⟩

/-- Split a character list at every separator satisfying `sep` (separators
dropped, empty pieces kept). -/
def splitChars (sep : Char → Bool) : List Char → List Char → List (List Char)
  | [], acc => [acc.reverse]
  | c :: cs, acc =>
    if sep c then acc.reverse :: splitChars sep cs []
    else splitChars sep cs (c :: acc)

/-- Python `s.split(',')` followed by `.strip()` on each piece. -/
def splitCommaTrim (s : String) : List String :=
  (splitChars (fun c => c == ',') s.toList []).map (fun cs => ⟨trimChars cs⟩)

/-- SQL `icontains`: case-insensitive substring containment. -/
def icontains (haystack needle : String) : Bool :=
  hasInfixChars (lowerChars needle) (lowerChars haystack)

/-! ## Criteria model (api/filters.py, `BookFilter`)

The fields below are the parsed (`cleaned_data`) values of the declared
filters; `none` means the criterion is absent from the request. -/

structure BookFilterParams where
  title : Option String := none
  description : Option String := none
  isbn : Option String := none
  price_min : Option Rat := none
  price_max : Option Rat := none
  rating_min : Option Rat := none
  rating_max : Option Rat := none
  pages_min : Option Rat := none
  pages_max : Option Rat := none
  publication_year_min : Option Rat := none
  publication_year_max : Option Rat := none
  genre : Option String := none
  in_stock : Option Bool := none
  author : Option Nat := none
  author_name : Option String := none
  created_after : Option Nat := none
  created_before : Option Nat := none
  updated_after : Option Nat := none
  updated_before : Option Nat := none

/-- Apply one optional criterion: absent criteria leave the queryset
unchanged (`FilterSet.filter_queryset` skips keys missing from
`cleaned_data`). -/
def applyCriterion {β : Type} (v : Option β) (f : β → List Book → List Book)
    (l : List Book) : List Book :=
  match v with
  | none => l
  | some x => f x l

/-- Source `BookFilter.qs`: conjunctive application of every declared criterion, in
declaration order.  SQL comparisons against a NULL column are false, so a
`none` field never satisfies a range bound. -/
def bookFilterQs (p : BookFilterParams) (books : List Book) : List Book :=
  let l := books
  let l := applyCriterion p.title (fun v => List.filter (fun b => icontains b.title v)) l
  let l := applyCriterion p.description (fun v => List.filter (fun b => icontains b.description v)) l
  let l := applyCriterion p.isbn (fun v => List.filter (fun b => b.isbn == v)) l
  let l := applyCriterion p.price_min (fun v => List.filter (fun b => decide (v ≤ b.price))) l
  let l := applyCriterion p.price_max (fun v => List.filter (fun b => decide (b.price ≤ v))) l
  let l := applyCriterion p.rating_min (fun v => List.filter (fun b =>
    match b.rating with
    | none => false
    | some r => decide (v ≤ r))) l
  let l := applyCriterion p.rating_max (fun v => List.filter (fun b =>
    match b.rating with
    | none => false
    | some r => decide (r ≤ v))) l
  let l := applyCriterion p.pages_min (fun v => List.filter (fun b =>
    match b.pages with
    | none => false
    | some n => decide (v ≤ (n : Rat)))) l
  let l := applyCriterion p.pages_max (fun v => List.filter (fun b =>
    match b.pages with
    | none => false
    | some n => decide ((n : Rat) ≤ v))) l
  let l := applyCriterion p.publication_year_min (fun v => List.filter (fun b =>
    decide (v ≤ (b.publication_year : Rat)))) l
  let l := applyCriterion p.publication_year_max (fun v => List.filter (fun b =>
    decide ((b.publication_year : Rat) ≤ v))) l
  let l := applyCriterion p.genre (fun v => List.filter (fun b => b.genre == v)) l
  let l := applyCriterion p.in_stock (fun v => List.filter (fun b => b.in_stock == v)) l
  let l := applyCriterion p.author (fun v => List.filter (fun b => b.author == v)) l
  let l := applyCriterion p.author_name (fun v => List.filter (fun b => icontains b.author_name v)) l
  let l := applyCriterion p.created_after (fun v => List.filter (fun b => decide (v ≤ b.created_at))) l
  let l := applyCriterion p.created_before (fun v => List.filter (fun b => decide (b.created_at ≤ v))) l
  let l := applyCriterion p.updated_after (fun v => List.filter (fun b => decide (v ≤ b.updated_at))) l
  let l := applyCriterion p.updated_before (fun v => List.filter (fun b => decide (b.updated_at ≤ v))) l
  l

/-! ## Search evaluator (`SearchFilter`, `BookViewSet.search_fields`) -/

/-- The search backend replaces commas by spaces and splits the query on
whitespace into (non-empty) terms. -/
def searchTerms (q : String) : List String :=
  ((splitChars (fun c => c == ',' || c.isWhitespace) q.toList []).filter
    (fun cs => ¬ cs.isEmpty)).map (fun cs => ⟨cs⟩)

/-- Source `SearchFilter` over `BookViewSet.search_fields = [title, author__name,
description, isbn]`: every term must match (AND), each term may match any
field (OR, `icontains`). -/
def bookSearch (q : Option String) (books : List Book) : List Book :=
  match q with
  | none => books
  | some qs =>
    (searchTerms qs).foldl (fun l t => l.filter (fun b =>
      icontains b.title t || icontains b.author_name t ||
      icontains b.description t || icontains b.isbn t)) books

/-! ## Order evaluator (`OrderingFilter`, view `ordering_fields` / `ordering`) -/

/-- Stable insertion of `a` into `l`: `a` goes before the first element `b`
with `¬ le b a`, i.e. after every earlier element it ties with. -/
def insertLe {α : Type} (le : α → α → Bool) (a : α) : List α → List α
  | [] => [a]
  | b :: l => if le b a then b :: insertLe le a l else a :: b :: l

/-- Stable insertion sort by a boolean comparison. -/
def sortLe {α : Type} (le : α → α → Bool) : List α → List α
  | [] => []
  | a :: l => insertLe le a (sortLe le l)

/-- Three-way comparison on rationals. -/
def cmpRat (a b : Rat) : Ordering :=
  if a < b then .lt else if b < a then .gt else .eq

/-- Nullable column comparison: SQL NULLs sort first in ascending order. -/
def cmpOptRat (a b : Option Rat) : Ordering :=
  match a, b with
  | none, none => .eq
  | none, some _ => .lt
  | some _, none => .gt
  | some x, some y => cmpRat x y

/-- Comparison of one `Book` sort column, by column name. -/
def bookFieldCmp (field : String) (a b : Book) : Ordering :=
  if field = "title" then compare a.title b.title
  else if field = "publication_year" then compare a.publication_year b.publication_year
  else if field = "rating" then cmpOptRat a.rating b.rating
  else if field = "price" then cmpRat a.price b.price
  else if field = "created_at" then compare a.created_at b.created_at
  else .eq

/-- The base field of an ordering term when it carries a leading `-`. -/
def afterDash (s : String) : Option String :=
  match s.toList with
  | '-' :: cs => some ⟨cs⟩
  | _ => none

/-- One `order_by` key, honouring a leading `-` for descending. -/
def bookKeyCmp (key : String) (a b : Book) : Ordering :=
  match afterDash key with
  | some base => (bookFieldCmp base a b).swap
  | none => bookFieldCmp key a b

/-- Lexicographic multi-key comparison, first key most significant. -/
def bookOrderCmp (keys : List String) (a b : Book) : Ordering :=
  match keys with
  | [] => .eq
  | k :: ks =>
    match bookKeyCmp k a b with
    | .eq => bookOrderCmp ks a b
    | o => o

/-- Source `queryset.order_by(*keys)` on books: stable sort by the key list. -/
def bookOrderBy (keys : List String) (books : List Book) : List Book :=
  sortLe (fun a b =>
    match bookOrderCmp keys a b with
    | .gt => false
    | _ => true) books

/-- Source `BookViewSet.ordering_fields` (the ordering allow-list). -/
def bookOrderingFields : List String :=
  ["title", "publication_year", "rating", "price", "created_at"]

/-- Source `BookViewSet.ordering = ['-created_at']` — the view's default ordering,
used by `OrderingFilter` when no requested key is valid. -/
def bookViewDefaultOrdering : List String := ["-created_at"]

/-- Source `Book.Meta.ordering = ['-publication_year', 'title']` (api/models.py). -/
def bookMetaOrdering : List String := ["-publication_year", "title"]

/-- Strip one leading `-` (direction marker) from an ordering term. -/
def stripMinus (s : String) : String :=
  match afterDash s with
  | some base => base
  | none => s

/-- Source `OrderingFilter.remove_invalid_fields`: keep only terms whose base name
is in the allow-list. -/
def removeInvalidFields (allowed : List String) (fields : List String) : List String :=
  fields.filter (fun f => allowed.contains (stripMinus f))

/-- Source `OrderingFilter.get_ordering` for books: split the `ordering` query
parameter on commas, strip whitespace, drop invalid terms; if nothing
valid remains (or the parameter is absent) fall back to the view's
default ordering. -/
def getBookOrdering (param : Option String) : List String :=
  match param with
  | none => bookViewDefaultOrdering
  | some p =>
    let fields := splitCommaTrim p
    let ordering := removeInvalidFields bookOrderingFields fields
    if ordering ≠ [] then ordering else bookViewDefaultOrdering

/-- The order evaluator of the book list endpoint: `order_by` with the keys
chosen by `OrderingFilter`. -/
def bookOrderEvaluator (param : Option String) (books : List Book) : List Book :=
  bookOrderBy (getBookOrdering param) books

/-- Comparison of one `Author` sort column, by column name. -/
def authorFieldCmp (field : String) (a b : Author) : Ordering :=
  if field = "name" then compare a.name b.name
  else if field = "birth_date" then
    (match a.birth_date, b.birth_date with
     | none, none => .eq
     | none, some _ => .lt
     | some _, none => .gt
     | some x, some y => compare x y)
  else if field = "created_at" then compare a.created_at b.created_at
  else .eq

/-- One `order_by` key on authors, honouring a leading `-`. -/
def authorKeyCmp (key : String) (a b : Author) : Ordering :=
  match afterDash key with
  | some base => (authorFieldCmp base a b).swap
  | none => authorFieldCmp key a b

/-- Lexicographic multi-key comparison on authors. -/
def authorOrderCmp (keys : List String) (a b : Author) : Ordering :=
  match keys with
  | [] => .eq
  | k :: ks =>
    match authorKeyCmp k a b with
    | .eq => authorOrderCmp ks a b
    | o => o

/-- Source `queryset.order_by(*keys)` on authors. -/
def authorOrderBy (keys : List String) (authors : List Author) : List Author :=
  sortLe (fun a b =>
    match authorOrderCmp keys a b with
    | .gt => false
    | _ => true) authors

/-- Source `AuthorViewSet.ordering_fields`. -/
def authorOrderingFields : List String := ["name", "birth_date", "created_at"]

/-- Source `AuthorViewSet.ordering = ['name']`. -/
def authorViewDefaultOrdering : List String := ["name"]

/-- Source `OrderingFilter.get_ordering` for authors. -/
def getAuthorOrdering (param : Option String) : List String :=
  match param with
  | none => authorViewDefaultOrdering
  | some p =>
    let fields := splitCommaTrim p
    let ordering := removeInvalidFields authorOrderingFields fields
    if ordering ≠ [] then ordering else authorViewDefaultOrdering

/-- The order evaluator of the author list endpoint. -/
def authorOrderEvaluator (param : Option String) (authors : List Author) : List Author :=
  authorOrderBy (getAuthorOrdering param) authors

/-- The book list read pipeline: filter backend, then search backend, then
ordering backend (the declared `filter_backends` order of `BookViewSet`). -/
def bookListQueryset (p : BookFilterParams) (q : Option String)
    (orderParam : Option String) (books : List Book) : List Book :=
  bookOrderEvaluator orderParam (bookSearch q (bookFilterQs p books))

/-! ## Paginator (api/pagination.py on top of the framework paginator)

`StandardResultsSetPagination` sets `page_size = 20`, `max_page_size = 100`
and reshapes the response; the page arithmetic is the framework's: count,
`num_pages = ceil(max(1, count) / per_page)` (zero orphans, an empty first
page allowed), page `p` holding the slice
`[(p-1)*per_page : p*per_page]`, and `paginate_queryset` turning an invalid
page number into a 404 response. -/

/-- Ceiling division `ceil(n / size)` on naturals (`size = 0` gives `0`). -/
def ceilDiv (n size : Nat) : Nat := (n + size - 1) / size

/-- The 1-indexed page `p` of an ordered sequence: the slice
`[(p-1)*size : p*size]`. -/
def pageSlice {α : Type} (l : List α) (size p : Nat) : List α :=
  (l.drop ((p - 1) * size)).take size

/-- All pages `1 .. ceil(count / size)` of an ordered sequence. -/
def paginatorPages {α : Type} (l : List α) (size : Nat) : List (List α) :=
  (List.range (ceilDiv l.length size)).map (fun i => pageSlice l size (i + 1))

/-- Django `Paginator.num_pages` with zero orphans and an empty first page
allowed: `ceil(max(1, count) / per_page)`. -/
def djangoNumPages (count size : Nat) : Nat := ceilDiv (max count 1) size

/-- Default and maximum page size of `StandardResultsSetPagination`. -/
def standardPageSize : Nat := 20

/-- Source `max_page_size` of `StandardResultsSetPagination`. -/
def standardMaxPageSize : Nat := 100

/-- Outcome of a failed read request. -/
inductive ApiError where
  /-- HTTP 404, e.g. the `NotFound` raised by `paginate_queryset`. -/
  | notFound
  /-- HTTP 400, an explicit bad-request response. -/
  | badRequest
  /-- HTTP 500, an exception nothing handled. -/
  | serverError
deriving DecidableEq, Repr

/-- Decidable equality of request outcomes. -/
instance exceptDecEq {e s : Type} [DecidableEq e] [DecidableEq s] :
    DecidableEq (Except e s) := fun x y =>
  match x, y with
  | .error a, .error b =>
    if h : a = b then isTrue (by rw [h]) else isFalse (fun hh => h (Except.error.inj hh))
  | .ok a, .ok b =>
    if h : a = b then isTrue (by rw [h]) else isFalse (fun hh => h (Except.ok.inj hh))
  | .error _, .ok _ => isFalse (fun hh => Except.noConfusion hh)
  | .ok _, .error _ => isFalse (fun hh => Except.noConfusion hh)

/-- The paginated response shape produced by
`StandardResultsSetPagination.get_paginated_response`; `next` / `previous`
hold the adjacent page number when such a page exists (standing for the
links). -/
structure PageResponse where
  count : Nat
  next : Option Nat
  previous : Option Nat
  page_size : Nat
  total_pages : Nat
  current_page : Nat
  results : List Book
deriving DecidableEq, Repr

/-- Source `paginate_queryset` plus `get_paginated_response`: Django
`Paginator.validate_number` rejects page numbers below 1 and page numbers
above `num_pages` (page 1 of an empty collection excepted), and the REST
framework converts that rejection into a 404 `NotFound`; a valid page is
the corresponding slice together with its metadata. -/
def paginateQueryset (books : List Book) (size : Nat) (pageNumber : Int) :
    Except ApiError PageResponse :=
  if pageNumber < 1 then .error .notFound
  else if (djangoNumPages books.length size : Int) < pageNumber ∧ pageNumber ≠ 1 then
    .error .notFound
  else
    .ok { count := books.length
          next :=
            if pageNumber.toNat < djangoNumPages books.length size then
              some (pageNumber.toNat + 1)
            else none
          previous := if 1 < pageNumber.toNat then some (pageNumber.toNat - 1) else none
          page_size := size
          total_pages := djangoNumPages books.length size
          current_page := pageNumber.toNat
          results := pageSlice books size pageNumber.toNat }

/-! ## Aggregation actions (api/views.py) -/

/-- SQL `AVG` over a list of non-NULL values: NULL on an empty input,
otherwise the arithmetic mean. -/
def sqlAvg (l : List Rat) : Option Rat :=
  if l.isEmpty then none else some (l.sum / l.length)

/-- First-occurrence deduplication (the distinct keys of a `GROUP BY`). -/
def dedupFirst (l : List String) : List String :=
  l.foldl (fun acc a => if acc.contains a then acc else acc ++ [a]) []

/-- Source `values('genre').annotate(count=Count('id')).order_by('-count')`:
group the books by genre and sort the (genre, count) rows by descending
count. -/
def genreDistribution (books : List Book) : List (String × Nat) :=
  sortLe (fun a b => decide (b.2 ≤ a.2))
    ((dedupFirst (books.map Book.genre)).map
      (fun g => (g, (books.map Book.genre).count g)))

/-- Source `values('publication_year').annotate(count=Count('id'))
.order_by('-publication_year')`. -/
def yearDistribution (books : List Book) : List (Int × Nat) :=
  sortLe (fun a b => decide (b.1 ≤ a.1))
    (((books.map Book.publication_year).foldl
        (fun acc a => if acc.contains a then acc else acc ++ [a]) []).map
      (fun y => (y, (books.map Book.publication_year).count y)))

/-- The response body of `AuthorViewSet.statistics`. -/
structure AuthorStats where
  total_books : Nat
  average_rating : Option Rat
  genres : List (String × Nat)
  publication_years : List (Int × Nat)
  min_price : Option Rat
  max_price : Option Rat
deriving DecidableEq, Repr

/-- Source `AuthorViewSet.statistics` over the author's books:
`books.count()`, `books.aggregate(Avg('rating'))` (SQL `AVG` skips NULL
ratings and is itself NULL when no rated book exists), the genre and
publication-year distributions, and a `price_range` whose `min_price` and
`max_price` are BOTH computed with `Avg('price')` (as written in the
source). -/
def authorStatistics (books : List Book) : AuthorStats :=
  { total_books := books.length
    average_rating := sqlAvg (books.filterMap Book.rating)
    genres := genreDistribution books
    publication_years := yearDistribution books
    min_price := sqlAvg (books.map Book.price)
    max_price := sqlAvg (books.map Book.price) }

/-- The books owned by one author (the `books` reverse relation). -/
def booksOfAuthor (books : List Book) (a : Author) : List Book :=
  books.filter (fun b => b.author == a.id)

/-! ### Integer parsing for the `top_rated` and `recent` actions

Both actions run `int(request.query_params.get(key, default))` with no
exception handler, so a value `int()` rejects escapes as an unhandled
`ValueError` (HTTP 500). -/

/-- Numeric value of a digit list (most significant first). -/
def digitsVal (cs : List Char) : Nat :=
  cs.foldl (fun n c => 10 * n + (c.toNat - 48)) 0

/-- Python `int(str)`: surrounding whitespace stripped, an optional sign,
then at least one decimal digit.  (Underscore separators and other exotic
accepted forms are not used by this API and are not modelled.) -/
def pyInt (s : String) : Option Int :=
  match trimChars s.toList with
  | [] => none
  | '+' :: cs =>
    if cs ≠ [] ∧ cs.all Char.isDigit then some (digitsVal cs) else none
  | '-' :: cs =>
    if cs ≠ [] ∧ cs.all Char.isDigit then some (-(digitsVal cs : Int)) else none
  | cs =>
    if cs.all Char.isDigit then some (digitsVal cs) else none

/-- Python `float(str)` for the plain decimal forms the API receives:
optional sign, digits with an optional fractional part.  (Exponents,
`inf` and `nan` are not modelled.) -/
def pyFloatCore (cs : List Char) : Option Rat :=
  let intPart := cs.takeWhile Char.isDigit
  let rest := cs.dropWhile Char.isDigit
  match rest with
  | [] => if intPart.isEmpty then none else some (digitsVal intPart)
  | '.' :: frac =>
    if frac.all Char.isDigit ∧ (intPart ≠ [] ∨ frac ≠ []) then
      some ((digitsVal intPart : Rat) + (digitsVal frac : Rat) / (10 : Rat) ^ frac.length)
    else none
  | _ => none

/-- Python `float(str)` with sign and whitespace handling. -/
def pyFloat (s : String) : Option Rat :=
  match trimChars s.toList with
  | '+' :: cs => pyFloatCore cs
  | '-' :: cs => (pyFloatCore cs).map (fun q => -q)
  | cs => pyFloatCore cs

/-- Source `AuthorViewSet.top_rated` body after the limit is known: annotate every
author with average book rating and book count, keep authors with at least
one book, order by descending average rating (NULL averages last, as in
descending SQL order), take the first `limit`. -/
def topRatedCompute (limit : Int) (authors : List Author) (books : List Book) :
    List Author :=
  let annotated := authors.map (fun a =>
    (a, sqlAvg ((booksOfAuthor books a).filterMap Book.rating),
        (booksOfAuthor books a).length))
  let withBooks := annotated.filter (fun t => decide (0 < t.2.2))
  let sorted := sortLe (fun x y =>
    match (cmpOptRat x.2.1 y.2.1).swap with
    | .gt => false
    | _ => true) withBooks
  (sorted.map (fun t => t.1)).take limit.toNat

/-- Source `AuthorViewSet.top_rated`: `limit = int(request.query_params.get('limit',
10))` — an absent parameter defaults to 10, an unparseable one raises an
unhandled `ValueError` (HTTP 500). -/
def topRatedAction (limitParam : Option String) (authors : List Author)
    (books : List Book) : Except ApiError (List Author) :=
  match limitParam with
  | none => .ok (topRatedCompute 10 authors books)
  | some s =>
    match pyInt s with
    | none => .error .serverError
    | some n => .ok (topRatedCompute n authors books)

/-- Source `BookViewSet.recent` body: keep books with
`publication_year ≥ current_year - years`. -/
def recentCompute (years : Int) (today : Int) (books : List Book) : List Book :=
  books.filter (fun b => decide (today - years ≤ b.publication_year))

/-- Source `BookViewSet.recent`: `years = int(request.query_params.get('years', 2))`
— an absent parameter defaults to 2, an unparseable one raises an unhandled
`ValueError` (HTTP 500). -/
def recentAction (yearsParam : Option String) (today : Int)
    (books : List Book) : Except ApiError (List Book) :=
  match yearsParam with
  | none => .ok (recentCompute 2 today books)
  | some s =>
    match pyInt s with
    | none => .error .serverError
    | some n => .ok (recentCompute n today books)

/-- One optional price parameter of `BookViewSet.price_range`:
`float(request.query_params.get(key, default))` inside the action's
`try`/`except ValueError`. -/
def parsePriceParam (v : Option String) (default : Rat) : Option Rat :=
  match v with
  | none => some default
  | some s => pyFloat s

/-- Source `BookViewSet.price_range`: parse `min_price` (default 0) and `max_price`
(default 1000); a `ValueError` from either parse is caught and answered
with a 400 response, otherwise the inclusive price-range filter is applied.
(The subsequent pagination of the successful response is the standard
paginator and is not repeated here.) -/
def priceRangeAction (minP maxP : Option String) (books : List Book) :
    Except ApiError (List Book) :=
  match parsePriceParam minP 0, parsePriceParam maxP 1000 with
  | some a, some b =>
    .ok (books.filter (fun bk => decide (a ≤ bk.price) && decide (bk.price ≤ b)))
  | _, _ => .error .badRequest

/-! ## Write-path validation (api/serializers.py, `BookSerializer`) -/

/-- The deserialized payload of a book write request. -/
structure BookInput where
  title : String
  author : Nat
  author_name : String
  isbn : String
  publication_year : Int
  genre : String
  pages : Option Nat
  rating : Option Rat
  price : Rat
  description : String
  in_stock : Bool
deriving DecidableEq, Repr

/-- Source `BookSerializer.validate_title`. -/
def validateTitle (v : String) : Option String :=
  if trimStr v = "" then some "Book title cannot be empty."
  else if (trimChars v.toList).length < 1 then some "Book title must be at least 1 character long."
  else if 200 < (trimChars v.toList).length then some "Book title cannot exceed 200 characters."
  else none

/-- Source `BookSerializer.validate_isbn`, including the uniqueness probe against
the stored collection (`instance` is the record being updated, `none` on
create). -/
def validateIsbn (store : List Book) (inst0 : Option Book) (v : String) :
    Option String :=
  if v = "" then some "ISBN is required."
  else if ¬ v.toList.all Char.isDigit then some "ISBN must contain only digits."
  else if v.length ≠ 13 then some "ISBN must be exactly 13 digits."
  else if store.any (fun b => b.isbn == v) then
    match inst0 with
    | some inst =>
      if inst.isbn = v then none else some "A book with this ISBN already exists."
    | none => some "A book with this ISBN already exists."
  else none

/-- Source `BookSerializer.validate_publication_year`. -/
def validatePublicationYear (today : Int) (v : Int) : Option String :=
  if today < v then some "Publication year cannot be in the future."
  else if v < 1000 then some "Publication year must be 1000 or later."
  else none

/-- Source `BookSerializer.validate_rating`. -/
def validateRating (v : Option Rat) : Option String :=
  match v with
  | none => none
  | some r =>
    if r < 0 ∨ 5 < r then some "Rating must be between 0.0 and 5.0." else none

/-- Source `BookSerializer.validate_price`. -/
def validatePrice (v : Rat) : Option String :=
  if v < 0 then some "Price must be positive." else none

/-- One collected (field, message) entry. -/
def collectErr (field : String) (r : Option String) : List (String × String) :=
  match r with
  | none => []
  | some m => [(field, m)]

/-- The serializer's field-validation pass (`to_internal_value`): every
`validate_<field>` hook runs and its failure is recorded under its field
name; failures do NOT abort the pass, they are collected. -/
def bookFieldErrors (store : List Book) (inst0 : Option Book) (today : Int)
    (inp : BookInput) : List (String × String) :=
  collectErr "title" (validateTitle inp.title) ++
  collectErr "isbn" (validateIsbn store inst0 inp.isbn) ++
  collectErr "publication_year" (validatePublicationYear today inp.publication_year) ++
  collectErr "rating" (validateRating inp.rating) ++
  collectErr "price" (validatePrice inp.price)

/-- Source `BookSerializer.validate` (object level): reject a (title, author,
publication_year) triple that coincides (title case-insensitively) with a
different stored record.  Runs on the validated data, whose title has been
stripped by `validate_title`. -/
def validateBookObject (store : List Book) (inst0 : Option Book)
    (inp : BookInput) : Option String :=
  if store.any (fun b =>
      lowerChars b.title == lowerChars (trimStr inp.title) &&
      b.author == inp.author &&
      b.publication_year == inp.publication_year) then
    match inst0 with
    | some inst =>
      if ((store.filter (fun b =>
            lowerChars b.title == lowerChars (trimStr inp.title) &&
            b.author == inp.author &&
            b.publication_year == inp.publication_year)).map Book.id).head? = some inst.id
      then none
      else some "A book with this title, author, and publication year already exists."
    | none => some "A book with this title, author, and publication year already exists."
  else none

/-- Source `run_validation`: the field pass collects all field errors and reports
them together; only when every field passed does the object-level check
run. -/
def runBookValidation (store : List Book) (inst0 : Option Book) (today : Int)
    (inp : BookInput) : Except (List (String × String)) BookInput :=
  let errs := bookFieldErrors store inst0 today inp
  if errs ≠ [] then .error errs
  else
    match validateBookObject store inst0 inp with
    | some m => .error [("non_field_errors", m)]
    | none => .ok { inp with title := trimStr inp.title }

/-- Materialize a validated payload as a stored record. -/
def mkBook (id : Nat) (inp : BookInput) (now : Nat) : Book :=
  { id := id
    title := inp.title
    author := inp.author
    author_name := inp.author_name
    isbn := inp.isbn
    publication_year := inp.publication_year
    genre := inp.genre
    pages := inp.pages
    rating := inp.rating
    price := inp.price
    description := inp.description
    in_stock := inp.in_stock
    created_at := now
    updated_at := now }

/-- The serializer create path: validation errors abort the write (HTTP 400
with the collected error map); success appends the new record. -/
def createBook (store : List Book) (today : Int) (now : Nat) (inp : BookInput) :
    Except (List (String × String)) (List Book) :=
  match runBookValidation store none today inp with
  | .error e => .error e
  | .ok d => .ok (store ++ [mkBook (store.length + 1) d now])

/-- The stored collection after a create attempt: unchanged when validation
failed. -/
def booksAfterCreate (store : List Book) (today : Int) (now : Nat)
    (inp : BookInput) : List Book :=
  match createBook store today now inp with
  | .ok s => s
  | .error _ => store

/-! ## Model save path (api/models.py, `Book.save` / `Book.clean`)

`Book.save` runs `self.full_clean()` unconditionally before writing.
`full_clean` collects: per-field validation from the declarations (blank
and max-length checks, the 1000 ≤ publication_year ≤ current-year
validators, the 0.0–5.0 rating bounds, the non-negative price bound),
uniqueness checks (`isbn` unique, the `unique_together` triple), and the
model's own `clean` (no future publication year; a non-empty ISBN must be
all digits and exactly 13 characters).  The `MaxValueValidator` bound is
`timezone.now().year` captured at import; it is modelled with the same
`today` as `clean`'s `date.today().year`. -/

/-- Source `Book.full_clean` as the list of collected violation messages. -/
def bookFullClean (store : List Book) (today : Int) (b : Book) : List String :=
  (if b.title = "" then ["title: blank not allowed"] else []) ++
  (if 200 < b.title.length then ["title: max_length 200 exceeded"] else []) ++
  (if b.isbn = "" then ["isbn: blank not allowed"] else []) ++
  (if 13 < b.isbn.length then ["isbn: max_length 13 exceeded"] else []) ++
  (if store.any (fun x => x.isbn == b.isbn && x.id ≠ b.id) then
    ["isbn: already exists"] else []) ++
  (if b.publication_year < 1000 then ["publication_year: below 1000"] else []) ++
  (if today < b.publication_year then ["publication_year: above current year"] else []) ++
  (match b.rating with
   | none => []
   | some r =>
     (if r < 0 then ["rating: below 0.0"] else []) ++
     (if 5 < r then ["rating: above 5.0"] else [])) ++
  (if b.price < 0 then ["price: below 0"] else []) ++
  (if store.any (fun x =>
      x.title == b.title && x.author == b.author &&
      x.publication_year == b.publication_year && x.id ≠ b.id) then
    ["unique_together violated"] else []) ++
  (if today < b.publication_year then
    ["Publication year cannot be in the future."] else []) ++
  (if b.isbn ≠ "" ∧ ¬ b.isbn.toList.all Char.isDigit then
    ["ISBN must contain only digits."] else []) ++
  (if b.isbn ≠ "" ∧ b.isbn.length ≠ 13 then
    ["ISBN must be exactly 13 digits."] else [])

/-- Source `Book.save`: `full_clean` first — any violation raises and nothing is
written; otherwise the record is appended. -/
def bookSave (store : List Book) (today : Int) (b : Book) :
    Except (List String) (List Book) :=
  if bookFullClean store today b = [] then .ok (store ++ [b])
  else .error (bookFullClean store today b)

/-- The invariant claimed for every persisted book: no future publication
year, and a 13-digit all-numeric ISBN. -/
def bookInvariant (today : Int) (b : Book) : Prop :=
  b.publication_year ≤ today ∧
  b.isbn.toList.all Char.isDigit = true ∧
  b.isbn.length = 13

/-! ## Concrete fixtures (used by witnesses and counterexamples) -/

/-- A sample author. -/
def exAuthorA : Author :=
  { id := 1, name := "Alice Walker", bio := "Novelist", birth_date := none,
    nationality := "American", created_at := 1 }

/-- A rated technology book, published 2020, created at time 100. -/
def exBook1 : Book :=
  { id := 1, title := "Systems", author := 1, author_name := "Alice Walker",
    isbn := "9781111111111", publication_year := 2020, genre := "technology",
    pages := some 300, rating := some 4, price := 30, description := "On systems",
    in_stock := true, created_at := 100, updated_at := 100 }

/-- A rated fiction book, published 2000, created at time 200. -/
def exBook2 : Book :=
  { id := 2, title := "Old Novel", author := 1, author_name := "Alice Walker",
    isbn := "9782222222222", publication_year := 2000, genre := "fiction",
    pages := some 200, rating := some 5, price := 20, description := "A novel",
    in_stock := true, created_at := 200, updated_at := 200 }

/-- An unrated fiction book, published 2020, created at time 10. -/
def exBook3 : Book :=
  { id := 3, title := "Unrated", author := 1, author_name := "Alice Walker",
    isbn := "9783333333333", publication_year := 2020, genre := "fiction",
    pages := none, rating := none, price := 10, description := "",
    in_stock := false, created_at := 10, updated_at := 10 }

/-- A write payload reusing `exBook1`'s ISBN (and an invalid blank title, to
exhibit error collection across fields). -/
def exInputDup : BookInput :=
  { title := " ", author := 1, author_name := "Alice Walker",
    isbn := "9781111111111", publication_year := 2021, genre := "fiction",
    pages := none, rating := some 4, price := 15, description := "",
    in_stock := true }

/-! # Theorems -/

/-! ## Pagination lemmas -/

/-- Zero items means zero pages. -/
theorem ceilDiv_of_zero (size : Nat) : ceilDiv 0 size = 0 := by
  unfold ceilDiv
  cases size with
  | zero => rfl
  | succ s => exact Nat.div_eq_of_lt (by omega)

/-- Peeling one page off a non-empty collection. -/
theorem ceilDiv_succ (n size : Nat) (hn : 0 < n) (hs : 0 < size) :
    ceilDiv n size = ceilDiv (n - size) size + 1 := by
  unfold ceilDiv
  have h1 : n + size - 1 = (n - 1) + size := by omega
  rw [h1, Nat.add_div_right _ hs]
  rcases le_or_lt n size with h | h
  · have h2 : n - size = 0 := by omega
    rw [h2]
    have h3 : (n - 1) / size = 0 := Nat.div_eq_of_lt (by omega)
    have h4 : (0 + size - 1) / size = 0 := Nat.div_eq_of_lt (by omega)
    rw [h3, h4]
  · have h2 : n - size + size - 1 = (n - 1 - size) + size := by omega
    have h4 : n - 1 = (n - 1 - size) + size := by omega
    rw [h2, Nat.add_div_right _ hs]
    conv_lhs => rw [h4, Nat.add_div_right _ hs]

/-- Concatenating the pages `1 .. ceil(count/size)` restores the whole
sequence. -/
theorem join_paginatorPages {α : Type} (size : Nat) (hs : 0 < size)
    (l : List α) : (paginatorPages l size).flatten = l := by
  suffices h : ∀ n (l : List α), l.length = n → (paginatorPages l size).flatten = l from
    h l.length l rfl
  intro n
  induction n using Nat.strong_induction_on with
  | _ n ih =>
    intro l hl
    rcases eq_or_ne l [] with rfl | hne
    · simp [paginatorPages, ceilDiv_of_zero]
    · have hlen : 0 < l.length := List.length_pos.mpr hne
      have hrec : (paginatorPages (l.drop size) size).flatten = l.drop size := by
        apply ih (l.drop size).length _ (l.drop size) rfl
        rw [List.length_drop]
        omega
      have hrec2 : ((List.range (ceilDiv (l.length - size) size)).map
          (fun i => pageSlice (l.drop size) size (i + 1))).flatten = l.drop size := by
        rw [paginatorPages, List.length_drop] at hrec
        exact hrec
      have hfun : ((fun i => pageSlice l size (i + 1)) ∘ Nat.succ)
          = (fun i => pageSlice (l.drop size) size (i + 1)) := by
        funext i
        simp only [Function.comp, pageSlice, List.drop_drop, Nat.add_sub_cancel]
        rw [Nat.succ_mul, Nat.add_comm (i * size) size]
      have h0 : pageSlice l size (0 + 1) = l.take size := by
        simp [pageSlice]
      rw [paginatorPages, ceilDiv_succ l.length size hlen hs, List.range_succ_eq_map,
        List.map_cons, List.map_map, List.flatten_cons, hfun, hrec2, h0,
        List.take_append_drop]

/-- Claim C1: for every fixed filter/search/order criteria and every valid
(positive) page size, the concatenation of the Paginator's pages
`1 .. ceil(count/size)` — page `p` holding the slice
`[(p-1)*size : p*size]` — equals the full ordered result set of the book
list pipeline, each element exactly once. -/
theorem paginationPartition (p : BookFilterParams) (q orderParam : Option String)
    (books : List Book) (size : Nat) (hs : 0 < size) :
    (paginatorPages (bookListQueryset p q orderParam books) size).flatten
      = bookListQueryset p q orderParam books :=
  join_paginatorPages size hs _

/-- Witness for C1 at a concrete request: three books, page size 2. -/
theorem paginationPartitionWitness :
    0 < 2 ∧
    (paginatorPages (bookListQueryset {} none none [exBook1, exBook2, exBook3]) 2).flatten
      = bookListQueryset {} none none [exBook1, exBook2, exBook3] :=
  ⟨by decide, paginationPartition {} none none [exBook1, exBook2, exBook3] 2 (by decide)⟩

/-- Claim C2 counterexample: requesting page 5 of a 2-item result set with
page size 20 does NOT succeed with an empty list — `paginate_queryset`
raises `NotFound`, a 404 response. -/
theorem pageBeyondLastCounterexample :
    paginateQueryset [exBook1, exBook2] 20 5 = Except.error ApiError.notFound := by
  decide

/-- Claim C2 (amended): for every page number strictly greater than the
paginator's page count (page size positive), the read request fails with a
404 not-found error rather than returning an empty page. -/
theorem pageBeyondLastNotFound (books : List Book) (size : Nat) (p : Int)
    (hs : 0 < size) (hp : (djangoNumPages books.length size : Int) < p) :
    paginateQueryset books size p = Except.error ApiError.notFound := by
  have hnp : 1 ≤ djangoNumPages books.length size := by
    unfold djangoNumPages ceilDiv
    refine (Nat.le_div_iff_mul_le hs).mpr ?_
    omega
  have hnp' : (1 : Int) ≤ (djangoNumPages books.length size : Int) := by
    exact_mod_cast hnp
  have h1 : ¬ (p < 1) := by omega
  have h2 : p ≠ 1 := by omega
  unfold paginateQueryset
  rw [if_neg h1, if_pos ⟨hp, h2⟩]

/-- Witness for the amended C2 at page 5 of a 2-item collection. -/
theorem pageBeyondLastNotFoundWitness :
    0 < 20 ∧ ((djangoNumPages ([exBook1, exBook2] : List Book).length 20 : Int) < 5) ∧
    paginateQueryset [exBook1, exBook2] 20 5 = Except.error ApiError.notFound :=
  ⟨by decide, by decide,
    pageBeyondLastNotFound [exBook1, exBook2] 20 5 (by decide) (by decide)⟩

/-! ## Unguarded integer conversion (C10) -/

/-- Claim C10: the `top_rated` and `recent` actions convert their `limit` /
`years` query parameters with an unguarded `int(...)`: any value the
conversion rejects (e.g. `abc`) makes the read request fail with an
unhandled conversion error (HTTP 500) instead of degrading to the defaults
10 and 2; the defaults apply only when the parameter is absent. -/
theorem unguardedIntConversion (s : String) (h : pyInt s = none) :
    (∀ authors books, topRatedAction (some s) authors books
      = Except.error ApiError.serverError) ∧
    (∀ today books, recentAction (some s) today books
      = Except.error ApiError.serverError) ∧
    (∀ authors books, topRatedAction none authors books
      = Except.ok (topRatedCompute 10 authors books)) ∧
    (∀ today books, recentAction none today books
      = Except.ok (recentCompute 2 today books)) := by
  refine ⟨?_, ?_, ?_, ?_⟩
  · intro authors books
    simp only [topRatedAction, h]
  · intro today books
    simp only [recentAction, h]
  · intro authors books
    rfl
  · intro today books
    rfl

/-- Witness for C10 at the concrete parameter value `abc`. -/
theorem unguardedIntConversionWitness :
    pyInt "abc" = none ∧
    topRatedAction (some "abc") [exAuthorA] [exBook1]
      = Except.error ApiError.serverError ∧
    recentAction (some "abc") 2025 [exBook1] = Except.error ApiError.serverError :=
  ⟨by decide,
   (unguardedIntConversion "abc" (by decide)).1 [exAuthorA] [exBook1],
   (unguardedIntConversion "abc" (by decide)).2.1 2025 [exBook1]⟩

/-! ## `price_range` statistics defect (C7) -/

/-- Claim C7: `AuthorViewSet.statistics` computes both `min_price` and
`max_price` of the reported `price_range` with the averaging aggregate:
for every author with at least one book the two reported bounds coincide,
both equal to the mean price rather than the true minimum and maximum. -/
theorem priceRangeBothAverage (books : List Book) (h : books ≠ []) :
    (authorStatistics books).min_price = (authorStatistics books).max_price ∧
    (authorStatistics books).min_price
      = some ((books.map Book.price).sum / (books.length : Rat)) := by
  constructor
  · rfl
  · have hne : (books.map Book.price).isEmpty = false := by
      cases books with
      | nil => exact absurd rfl h
      | cons a t => rfl
    unfold authorStatistics sqlAvg
    simp [hne]

/-- Witness for C7 at a one-book author. -/
theorem priceRangeBothAverageWitness :
    ([exBook1] : List Book) ≠ [] ∧
    ((authorStatistics [exBook1]).min_price = (authorStatistics [exBook1]).max_price ∧
     (authorStatistics [exBook1]).min_price
       = some ((([exBook1] : List Book).map Book.price).sum /
           ((([exBook1] : List Book).length : Nat) : Rat))) :=
  ⟨by decide, priceRangeBothAverage [exBook1] (by decide)⟩

/-! ## Malformed criterion handling (C3) -/

/-- Claim C3 counterexample: on the `price_range` read action a non-numeric
`min_price` is NOT dropped with the request still succeeding (which would
return the whole collection with a 200): the request is answered with a 400
bad-request error. -/
theorem malformedCriterionCounterexample :
    priceRangeAction (some "abc") none [exBook1] = Except.error ApiError.badRequest ∧
    Except.error ApiError.badRequest
      ≠ (Except.ok [exBook1] : Except ApiError (List Book)) := by
  constructor
  · decide
  · decide

/-- Claim C3 (amended): the `price_range` read path raises no unhandled
exception, but a malformed numeric criterion is not dropped: when either
price parameter fails to parse the request is rejected with a 400
response; when both parse (absent parameters defaulting to 0 and 1000) the
inclusive range filter is applied and the request succeeds. -/
theorem priceRangeMalformedRejected (minP maxP : Option String) (books : List Book) :
    (parsePriceParam minP 0 = none ∨ parsePriceParam maxP 1000 = none →
      priceRangeAction minP maxP books = Except.error ApiError.badRequest) ∧
    (∀ a b, parsePriceParam minP 0 = some a → parsePriceParam maxP 1000 = some b →
      priceRangeAction minP maxP books
        = Except.ok (books.filter (fun bk =>
            decide (a ≤ bk.price) && decide (bk.price ≤ b)))) := by
  constructor
  · intro h
    unfold priceRangeAction
    rcases h with h | h
    · rw [h]
    · rw [h]
      cases parsePriceParam minP 0 <;> rfl
  · intro a b ha hb
    unfold priceRangeAction
    rw [ha, hb]

/-- Witness for the amended C3: the malformed branch at `min_price=abc` and
the successful branch with both parameters absent. -/
theorem priceRangeMalformedRejectedWitness :
    priceRangeAction (some "abc") none [exBook1] = Except.error ApiError.badRequest ∧
    priceRangeAction none none [exBook1]
      = Except.ok ([exBook1].filter (fun bk =>
          decide ((0 : Rat) ≤ bk.price) && decide (bk.price ≤ (1000 : Rat)))) :=
  ⟨(priceRangeMalformedRejected (some "abc") none [exBook1]).1 (Or.inl (by decide)),
   (priceRangeMalformedRejected none none [exBook1]).2 0 1000 (by decide) (by decide)⟩

/-! ## Range-bound inclusivity (C4) -/

/-- Claim C4: filtering with `rating_min = X` and `rating_max = X`
simultaneously returns exactly the books whose rating equals `X` — both
declared range bounds are inclusive (`gte` and `lte`); unrated books are
excluded by either bound. -/
theorem ratingBoundsInclusive (x : Rat) (books : List Book) :
    bookFilterQs { rating_min := some x, rating_max := some x } books
      = books.filter (fun b => b.rating == some x) := by
  simp only [bookFilterQs, applyCriterion, List.filter_filter]
  apply List.filter_congr
  intro b _
  cases hr : b.rating with
  | none => simp
  | some r =>
    rw [Bool.eq_iff_iff]
    simp only [Bool.and_eq_true, decide_eq_true_eq, beq_iff_eq, Option.some.injEq]
    constructor
    · rintro ⟨h1, h2⟩
      exact le_antisymm h1 h2
    · rintro rfl
      exact ⟨le_rfl, le_rfl⟩

/-! ## Ordering fallback (C5) -/

/-- Claim C5 counterexample: with an ordering key outside the allow-list
the book list is ordered by the view's `ordering = ['-created_at']`, NOT by
the entity's `Meta.ordering = ['-publication_year', 'title']` as claimed:
on a concrete pair of books the two orders disagree. -/
theorem orderingFallbackCounterexample :
    bookOrderEvaluator (some "invalid_field") [exBook2, exBook3] = [exBook2, exBook3] ∧
    bookOrderBy bookMetaOrdering [exBook2, exBook3] = [exBook3, exBook2] ∧
    ([exBook2, exBook3] : List Book) ≠ [exBook3, exBook2] := by
  refine ⟨by decide, by decide, by decide⟩

/-- Claim C5 (amended): when no requested ordering term's base name is in
an endpoint's own allow-list, that endpoint's result is ordered by its
VIEW's declared default ordering — for books descending `created_at`, for
authors ascending `name` — without raising an error.  The two halves are
independent: each needs the terms outside only its own allow-list, so it
also covers a book list ordered by an author-only key (e.g. `name`) and an
author list ordered by a book-only key (e.g. `title`). -/
theorem orderingFallbackViewDefault (o : String) (books : List Book)
    (authors : List Author) :
    ((∀ f ∈ splitCommaTrim o, stripMinus f ∉ bookOrderingFields) →
      bookOrderEvaluator (some o) books
        = bookOrderBy bookViewDefaultOrdering books) ∧
    ((∀ f ∈ splitCommaTrim o, stripMinus f ∉ authorOrderingFields) →
      authorOrderEvaluator (some o) authors
        = authorOrderBy authorViewDefaultOrdering authors) := by
  constructor
  · intro hb
    have hb0 : removeInvalidFields bookOrderingFields (splitCommaTrim o) = [] := by
      unfold removeInvalidFields
      rw [List.filter_eq_nil_iff]
      intro f hf
      simpa using hb f hf
    unfold bookOrderEvaluator getBookOrdering
    simp [hb0]
  · intro ha
    have ha0 : removeInvalidFields authorOrderingFields (splitCommaTrim o) = [] := by
      unfold removeInvalidFields
      rw [List.filter_eq_nil_iff]
      intro f hf
      simpa using ha f hf
    unfold authorOrderEvaluator getAuthorOrdering
    simp [ha0]

/-- Witness for the amended C5 at the cross-entity keys: a book list
ordered by `name` (a valid AUTHOR key, absent from the book allow-list)
falls back to descending `created_at`, and an author list ordered by
`title` (a valid BOOK key, absent from the author allow-list) falls back
to ascending `name`. -/
theorem orderingFallbackViewDefaultWitness :
    bookOrderEvaluator (some "name") [exBook2, exBook3]
      = bookOrderBy bookViewDefaultOrdering [exBook2, exBook3] ∧
    authorOrderEvaluator (some "title") [exAuthorA]
      = authorOrderBy authorViewDefaultOrdering [exAuthorA] :=
  ⟨(orderingFallbackViewDefault "name" [exBook2, exBook3] [exAuthorA]).1 (by decide),
   (orderingFallbackViewDefault "title" [exBook2, exBook3] [exAuthorA]).2 (by decide)⟩

/-! ## Author statistics (C6) -/

/-- Membership in a stable insertion. -/
theorem mem_insertLe {α : Type} (le : α → α → Bool) (a x : α) :
    ∀ l : List α, x ∈ insertLe le a l ↔ x = a ∨ x ∈ l := by
  intro l
  induction l with
  | nil => simp [insertLe]
  | cons b t ih =>
    unfold insertLe
    by_cases h : le b a = true
    · rw [if_pos h]
      simp only [List.mem_cons, ih]
      try tauto
    · rw [if_neg h]
      simp only [List.mem_cons]
      try tauto

/-- Stable insertion preserves sortedness for a total transitive boolean
comparison. -/
theorem pairwise_insertLe {α : Type} (le : α → α → Bool)
    (total : ∀ a b, le a b || le b a)
    (trans : ∀ a b c, le a b = true → le b c = true → le a c = true) (a : α) :
    ∀ l : List α, l.Pairwise (fun x y => le x y = true) →
      (insertLe le a l).Pairwise (fun x y => le x y = true) := by
  intro l
  induction l with
  | nil =>
    intro _
    simp [insertLe]
  | cons b t ih =>
    intro hp
    rcases List.pairwise_cons.mp hp with ⟨hb, ht⟩
    unfold insertLe
    by_cases h : le b a = true
    · rw [if_pos h]
      refine List.pairwise_cons.mpr ⟨?_, ih ht⟩
      intro x hx
      rcases (mem_insertLe le a x t).mp hx with rfl | hx
      · exact h
      · exact hb x hx
    · rw [if_neg h]
      have hab : le a b = true := by
        have htot : le a b = true ∨ le b a = true := by simpa using total a b
        rcases htot with h1 | h1
        · exact h1
        · exact absurd h1 h
      refine List.pairwise_cons.mpr ⟨?_, hp⟩
      intro x hx
      rcases List.mem_cons.mp hx with rfl | hx
      · exact hab
      · exact trans a b x hab (hb x hx)

/-- The stable insertion sort is sorted for a total transitive boolean
comparison. -/
theorem pairwise_sortLe {α : Type} (le : α → α → Bool)
    (total : ∀ a b, le a b || le b a)
    (trans : ∀ a b c, le a b = true → le b c = true → le a c = true) :
    ∀ l : List α, (sortLe le l).Pairwise (fun x y => le x y = true) := by
  intro l
  induction l with
  | nil => simp [sortLe]
  | cons a t ih =>
    unfold sortLe
    exact pairwise_insertLe le total trans a _ ih

/-- Claim C6 counterexample: for an author whose only book has no rating,
the statistics action reports `average_rating` as NULL/None, not 0.0 — the
action aggregates with SQL `AVG` directly and does not use the model helper
`get_average_rating` that returns 0.0. -/
theorem statisticsAvgNoneCounterexample :
    (authorStatistics [exBook3]).average_rating = none ∧
    (authorStatistics [exBook3]).average_rating ≠ some 0 := by
  refine ⟨by decide, by decide⟩

/-- Claim C6 (amended): the statistics action reports the author's book
count, the average rating computed over the rated books only — reported as
NULL/None (not 0.0) when the author has no rated book — and a genre
distribution sorted by descending count. -/
theorem authorStatisticsCharacterization (books : List Book) :
    (authorStatistics books).total_books = books.length ∧
    ((∀ b ∈ books, b.rating = none) →
      (authorStatistics books).average_rating = none) ∧
    (∀ r rs, books.filterMap Book.rating = r :: rs →
      (authorStatistics books).average_rating
        = some ((r :: rs).sum / ((r :: rs).length : Rat))) ∧
    List.Pairwise (fun a b => b.2 ≤ a.2) (authorStatistics books).genres := by
  refine ⟨rfl, ?_, ?_, ?_⟩
  · intro h
    have hnil : books.filterMap Book.rating = [] := by
      rw [List.filterMap_eq_nil_iff]
      exact h
    show sqlAvg (books.filterMap Book.rating) = none
    rw [hnil]
    rfl
  · intro r rs hr
    show sqlAvg (books.filterMap Book.rating) = _
    rw [hr]
    rfl
  · have hp := pairwise_sortLe (fun a b : String × Nat => decide (b.2 ≤ a.2))
      (fun a b => by
        rcases Nat.le_total b.2 a.2 with h | h
        · simp [h]
        · simp [h])
      (fun a b c h1 h2 => by
        simp only [decide_eq_true_eq] at h1 h2 ⊢
        exact le_trans h2 h1)
      ((dedupFirst (books.map Book.genre)).map
        (fun g => (g, (books.map Book.genre).count g)))
    show List.Pairwise _ (genreDistribution books)
    unfold genreDistribution
    exact hp.imp (fun h => by simpa using h)

/-- Witness for the amended C6: an unrated-only author reports a None
average; a two-book author reports the mean of the two ratings and a
descending genre distribution. -/
theorem authorStatisticsCharacterizationWitness :
    (authorStatistics [exBook3]).average_rating = none ∧
    (authorStatistics [exBook1, exBook2]).average_rating
      = some ((([4, 5] : List Rat)).sum / ((([4, 5] : List Rat)).length : Rat)) ∧
    List.Pairwise (fun a b => b.2 ≤ a.2) (authorStatistics [exBook1, exBook2]).genres :=
  ⟨(authorStatisticsCharacterization [exBook3]).2.1 (by decide),
   (authorStatisticsCharacterization [exBook1, exBook2]).2.2.1 4 [5] (by decide),
   (authorStatisticsCharacterization [exBook1, exBook2]).2.2.2⟩

/-! ## Duplicate-ISBN rejection (C8) -/

/-- With a duplicate ISBN in the store, `validate_isbn` on a create always
fails with some message. -/
theorem validateIsbn_dup (store : List Book) (v : String)
    (h : ∃ b ∈ store, b.isbn = v) : ∃ m, validateIsbn store none v = some m := by
  obtain ⟨b, hb, hv⟩ := h
  have hany : store.any (fun b => b.isbn == v) = true := by
    rw [List.any_eq_true]
    exact ⟨b, hb, by simp [hv]⟩
  unfold validateIsbn
  by_cases h1 : v = ""
  · rw [if_pos h1]
    exact ⟨_, rfl⟩
  · rw [if_neg h1]
    by_cases h2 : ¬ v.toList.all Char.isDigit = true
    · rw [if_pos h2]
      exact ⟨_, rfl⟩
    · rw [if_neg h2]
      by_cases h3 : v.length ≠ 13
      · rw [if_pos h3]
        exact ⟨_, rfl⟩
      · rw [if_neg h3, if_pos hany]
        exact ⟨_, rfl⟩

/-- Claim C8: a create whose ISBN equals a stored book's ISBN fails
validation with an ISBN-specific field error, the stored collection is
unchanged, and the reported payload is the whole collected field-error
list — every other failing field (e.g. title, price) is reported alongside
the ISBN failure, not only the first failure. -/
theorem duplicateIsbnRejected (store : List Book) (today : Int) (now : Nat)
    (inp : BookInput) (h : ∃ b ∈ store, b.isbn = inp.isbn) :
    (∃ m, ("isbn", m) ∈ bookFieldErrors store none today inp) ∧
    createBook store today now inp
      = Except.error (bookFieldErrors store none today inp) ∧
    booksAfterCreate store today now inp = store ∧
    (∀ m, validateTitle inp.title = some m →
      ("title", m) ∈ bookFieldErrors store none today inp) ∧
    (∀ m, validatePrice inp.price = some m →
      ("price", m) ∈ bookFieldErrors store none today inp) := by
  obtain ⟨mi, hmi⟩ := validateIsbn_dup store inp.isbn h
  have hmem : ("isbn", mi) ∈ bookFieldErrors store none today inp := by
    unfold bookFieldErrors
    rw [hmi]
    simp [collectErr]
  have hne : bookFieldErrors store none today inp ≠ [] :=
    List.ne_nil_of_mem hmem
  refine ⟨⟨mi, hmem⟩, ?_, ?_, ?_, ?_⟩
  · unfold createBook runBookValidation
    rw [if_pos hne]
  · unfold booksAfterCreate createBook runBookValidation
    rw [if_pos hne]
  · intro m hm
    unfold bookFieldErrors
    rw [hm]
    simp [collectErr]
  · intro m hm
    unfold bookFieldErrors
    rw [hm]
    simp [collectErr]

/-- Witness for C8: the duplicated ISBN of `exBook1` is rejected and the
store is unchanged; the blank-title failure is collected alongside. -/
theorem duplicateIsbnRejectedWitness :
    exBook1.isbn = exInputDup.isbn ∧
    createBook [exBook1] 2025 300 exInputDup
      = Except.error (bookFieldErrors [exBook1] none 2025 exInputDup) ∧
    booksAfterCreate [exBook1] 2025 300 exInputDup = [exBook1] ∧
    ("title", "Book title cannot be empty.")
      ∈ bookFieldErrors [exBook1] none 2025 exInputDup :=
  ⟨by decide,
   (duplicateIsbnRejected [exBook1] 2025 300 exInputDup (by decide)).2.1,
   (duplicateIsbnRejected [exBook1] 2025 300 exInputDup (by decide)).2.2.1,
   (duplicateIsbnRejected [exBook1] 2025 300 exInputDup (by decide)).2.2.2.1
     "Book title cannot be empty." (by decide)⟩

/-! ## Model save invariant (C9) -/

/-- A violation list of the shape `if c then [m] else []` is empty only when
the condition fails. -/
theorem cond_nil_of_if_singleton {c : Prop} [Decidable c] {m : String}
    (h : (if c then [m] else []) = []) : ¬ c := by
  intro hc
  simp [hc] at h

/-- Claim C9: `Book.save` runs `full_clean` unconditionally, so every book
it persists satisfies `publication_year ≤ current year` and has an ISBN of
exactly 13 digits; a store of invariant-satisfying records still satisfies
the invariant after every successful save. -/
theorem savedBookInvariant (store : List Book) (today : Int) (b : Book)
    (store' : List Book) (hok : bookSave store today b = Except.ok store')
    (hstore : ∀ x ∈ store, bookInvariant today x) :
    store' = store ++ [b] ∧ ∀ x ∈ store', bookInvariant today x := by
  unfold bookSave at hok
  by_cases hc : bookFullClean store today b = []
  · rw [if_pos hc] at hok
    have hst : store' = store ++ [b] := (Except.ok.inj hok).symm
    subst hst
    refine ⟨rfl, ?_⟩
    have hinv : bookInvariant today b := by
      unfold bookFullClean at hc
      simp only [List.append_eq_nil] at hc
      obtain ⟨hc, h13⟩ := hc
      obtain ⟨hc, h12⟩ := hc
      obtain ⟨hc, h11⟩ := hc
      obtain ⟨hc, _⟩ := hc
      obtain ⟨hc, _⟩ := hc
      obtain ⟨hc, _⟩ := hc
      obtain ⟨hc, _⟩ := hc
      obtain ⟨hc, _⟩ := hc
      obtain ⟨hc, _⟩ := hc
      obtain ⟨hc, _⟩ := hc
      obtain ⟨_, h3⟩ := hc
      have hisbn : b.isbn ≠ "" := cond_nil_of_if_singleton h3
      have hyear : ¬ today < b.publication_year := cond_nil_of_if_singleton h11
      have hdig : ¬ (b.isbn ≠ "" ∧ ¬ b.isbn.toList.all Char.isDigit) :=
        cond_nil_of_if_singleton h12
      have hlen : ¬ (b.isbn ≠ "" ∧ b.isbn.length ≠ 13) :=
        cond_nil_of_if_singleton h13
      refine ⟨Int.not_lt.mp hyear, ?_, ?_⟩
      · by_contra hd
        exact hdig ⟨hisbn, fun hh => hd hh⟩
      · by_contra hl
        exact hlen ⟨hisbn, hl⟩
    intro x hx
    rcases List.mem_append.mp hx with hx | hx
    · exact hstore x hx
    · have hxb : x = b := by simpa using hx
      subst hxb
      exact hinv
  · rw [if_neg hc] at hok
    cases hok

/-- Witness for C9: a valid book saved into an empty store. -/
theorem savedBookInvariantWitness :
    bookSave [] 2025 exBook1 = Except.ok [exBook1] ∧
    bookInvariant 2025 exBook1 :=
  ⟨by decide,
   (savedBookInvariant [] 2025 exBook1 [exBook1] (by decide) (by simp)).2
     exBook1 (by simp)⟩

end CatalogApi
